import Mathlib

/-!
Verification development for the AI-Tutor orchestration middleware
(`orchestrator/gemini_agent.py`, `orchestrator/orchestrator_core.py`,
`orchestrator/tool_executor.py`).

The Python code is shallowly embedded: JSON values become an inductive
`Json` type, Python dicts become association lists with first-match
lookup and in-place update (`lookupD` / `insertD` / `setdefaultD`,
matching CPython dict semantics of preserving insertion order and
appending new keys at the end), and each function of the source is
translated one-to-one.  Network effects (the Gemini call and the
outbound tool call) are modelled by passing their observable outcome in
as an explicit argument.

Modelling notes, for auditability:
* JSON numeric literals are modelled as integers only; the parser
  rejects fractions/exponents and `\u` escapes.  The repository's
  schemas and all inputs exercised below use only integers and plain
  strings, so `json.loads` and the model agree on every input examined.
* Python `int(str)` is modelled as optional sign plus a digit run after
  whitespace stripping (underscore separators are not modelled).
* Python set iteration order (for the `missing` required-field set) is
  unspecified; the embedding iterates in the schema's declared
  `required` order.  Every fact proved below is insensitive to this
  order.
-/

set_option maxRecDepth 4000

namespace AITutor

/-- A JSON value as produced by `json.loads` (numbers restricted to
integers; see the header note). -/
inductive Json where
  | null
  | bool (b : Bool)
  | num (n : Int)
  | str (s : String)
  | arr (elems : List Json)
  | obj (members : List (String × Json))
deriving Inhabited, Repr

/-- A Python dict with string keys, as an insertion-ordered association
list. -/
abbrev PDict := List (String × Json)

/-- Python `d.get(k)` / `k in d`: first-match lookup. -/
def lookupD : PDict → String → Option Json
  | [], _ => none
  | (k1, v) :: rest, k => if k1 = k then some v else lookupD rest k

/-- Python `d[k] = v`: replace in place if the key exists, else append
at the end (CPython insertion-order semantics). -/
def insertD : PDict → String → Json → PDict
  | [], k, v => [(k, v)]
  | (k1, v1) :: rest, k, v =>
      if k1 = k then (k1, v) :: rest else (k1, v1) :: insertD rest k v

/-- Python `d.setdefault(k, v)`: insert only when the key is absent. -/
def setdefaultD (d : PDict) (k : String) (v : Json) : PDict :=
  match lookupD d k with
  | some _ => d
  | none => insertD d k v

/-- Whitespace for Python `str.strip()` / `str.split()` (ASCII subset). -/
def isSpc (c : Char) : Bool :=
  c = ' ' ∨ c = '\t' ∨ c = '\n' ∨ c = '\r' ∨ c = '\x0b' ∨ c = '\x0c'

/-- Python `str.strip()` on a char list. -/
def stripChars (cs : List Char) : List Char :=
  ((cs.dropWhile isSpc).reverse.dropWhile isSpc).reverse

/-- Python `str.strip()`. -/
def pyStrip (s : String) : String := String.mk (stripChars s.toList)

/-- Helper for `splitWs`: accumulate the current token (reversed). -/
def splitWsAux : List Char → List Char → List String
  | [], acc => if acc = [] then [] else [String.mk acc.reverse]
  | c :: rest, acc =>
      if isSpc c then
        if acc = [] then splitWsAux rest []
        else String.mk acc.reverse :: splitWsAux rest []
      else splitWsAux rest (c :: acc)

/-- Python `str.split()` with no argument: split on whitespace runs,
dropping empty pieces. -/
def splitWs (s : String) : List String := splitWsAux s.toList []

/-- Python `str.lower()` (ASCII case folding). -/
def toLowerS (s : String) : String := String.mk (s.toList.map Char.toLower)

/-- Python `" ".join(...)`. -/
def joinSpace : List String → String
  | [] => ""
  | [x] => x
  | x :: rest => x ++ " " ++ joinSpace rest

/-- Numeric value of a digit run. -/
def natOfDigits (cs : List Char) : Nat :=
  cs.foldl (fun acc c => acc * 10 + (c.toNat - '0'.toNat)) 0

/-- Helper for `pyIntOfString`: a non-empty all-digit run parses. -/
def digitsVal (cs : List Char) : Option Int :=
  if cs ≠ [] ∧ cs.all Char.isDigit then some (natOfDigits cs : Int) else none

/-- Python `int(s)` on a string: strip whitespace, optional single sign,
then a non-empty digit run consuming the whole remainder; `None` models
the `ValueError`. -/
def pyIntOfString (s : String) : Option Int :=
  match stripChars s.toList with
  | [] => none
  | c :: rest =>
      if c = '-' then (digitsVal rest).map (fun n => -n)
      else if c = '+' then digitsVal rest
      else digitsVal (c :: rest)

/-- Python `int(x)` applied to a JSON value (`int` of a bool is 0/1;
`int` of `None`, a list or a dict raises, modelled as `none`). -/
def pyIntOfJson : Json → Option Int
  | .num n => some n
  | .bool b => some (if b then 1 else 0)
  | .str s => pyIntOfString s
  | _ => none

/-- First run of ASCII digits in a string, as `re.search(r"(\d+)", s)`
finds it; `none` when the string has no digit. -/
def firstDigitRun (s : String) : Option Nat :=
  let run := (s.toList.dropWhile (fun c => ¬ c.isDigit)).takeWhile Char.isDigit
  if run = [] then none else some (natOfDigits run)

/-! ### The `json.loads` model (integer-literal JSON subset) -/

/-- JSON structural whitespace (RFC 8259: space, tab, LF, CR). -/
def skipWsJ : List Char → List Char :=
  List.dropWhile (fun c => c = ' ' ∨ c = '\t' ∨ c = '\n' ∨ c = '\r')

/-- String body after the opening quote; handles the single-character
escapes (`\u` is outside the modelled subset) and rejects raw control
characters, as `json.loads` does. -/
def strBody (acc : List Char) : List Char → Option (String × List Char)
  | [] => none
  | c :: rest =>
      if c = '"' then some (String.mk acc.reverse, rest)
      else if c = '\\' then
        match rest with
        | [] => none
        | e :: rest2 =>
            if e = '"' then strBody ('"' :: acc) rest2
            else if e = '\\' then strBody ('\\' :: acc) rest2
            else if e = '/' then strBody ('/' :: acc) rest2
            else if e = 'n' then strBody ('\n' :: acc) rest2
            else if e = 't' then strBody ('\t' :: acc) rest2
            else if e = 'r' then strBody ('\r' :: acc) rest2
            else if e = 'b' then strBody ('\x08' :: acc) rest2
            else if e = 'f' then strBody ('\x0c' :: acc) rest2
            else none
      else if c.toNat < 32 then none
      else strBody (c :: acc) rest

/-- Integer numeric literal: optional minus, digit run, no leading zero,
and no fraction/exponent (outside the modelled subset). -/
def parseIntLit (cs : List Char) : Option (Json × List Char) :=
  let (neg, cs1) :=
    match cs with
    | '-' :: rest => (true, rest)
    | _ => (false, cs)
  let ds := cs1.takeWhile Char.isDigit
  let rest := cs1.dropWhile Char.isDigit
  if ds = [] then none
  else if ds.length > 1 ∧ ds.headI = '0' then none
  else
    match rest with
    | '.' :: _ => none
    | 'e' :: _ => none
    | 'E' :: _ => none
    | _ =>
        let v : Int := (natOfDigits ds : Int)
        some (.num (if neg then -v else v), rest)

mutual

/-- One JSON value, fuel-bounded (fuel strictly exceeds the input length
at the top-level call, so the bound is never the reason a parse fails). -/
def parseValue : Nat → List Char → Option (Json × List Char)
  | 0, _ => none
  | fuel + 1, cs =>
      match skipWsJ cs with
      | [] => none
      | c :: rest =>
          if c = '"' then (strBody [] rest).map (fun p => (Json.str p.1, p.2))
          else if c = '{' then parseObjBody fuel rest
          else if c = '[' then parseArrBody fuel rest
          else if ['t','r','u','e'].isPrefixOf (c :: rest) then
            some (.bool true, (c :: rest).drop 4)
          else if ['f','a','l','s','e'].isPrefixOf (c :: rest) then
            some (.bool false, (c :: rest).drop 5)
          else if ['n','u','l','l'].isPrefixOf (c :: rest) then
            some (.null, (c :: rest).drop 4)
          else parseIntLit (c :: rest)

/-- Object body after `{`. -/
def parseObjBody : Nat → List Char → Option (Json × List Char)
  | 0, _ => none
  | fuel + 1, cs =>
      match skipWsJ cs with
      | '}' :: rest => some (.obj [], rest)
      | cs1 => parseMembers fuel cs1 []

/-- Comma-separated `"key": value` members, ending at `}`. -/
def parseMembers : Nat → List Char → List (String × Json) →
    Option (Json × List Char)
  | 0, _, _ => none
  | fuel + 1, cs, acc =>
      match skipWsJ cs with
      | '"' :: rest =>
          match strBody [] rest with
          | none => none
          | some (k, rest1) =>
              match skipWsJ rest1 with
              | ':' :: rest2 =>
                  match parseValue fuel rest2 with
                  | none => none
                  | some (v, rest3) =>
                      match skipWsJ rest3 with
                      | ',' :: rest4 => parseMembers fuel rest4 (acc ++ [(k, v)])
                      | '}' :: rest4 => some (.obj (acc ++ [(k, v)]), rest4)
                      | _ => none
              | _ => none
      | _ => none

/-- Array body after `[`. -/
def parseArrBody : Nat → List Char → Option (Json × List Char)
  | 0, _ => none
  | fuel + 1, cs =>
      match skipWsJ cs with
      | ']' :: rest => some (.arr [], rest)
      | cs1 => parseElems fuel cs1 []

/-- Comma-separated array elements, ending at `]`. -/
def parseElems : Nat → List Char → List Json → Option (Json × List Char)
  | 0, _, _ => none
  | fuel + 1, cs, acc =>
      match parseValue fuel cs with
      | none => none
      | some (v, rest) =>
          match skipWsJ rest with
          | ',' :: rest1 => parseElems fuel rest1 (acc ++ [v])
          | ']' :: rest1 => some (.arr (acc ++ [v]), rest1)
          | _ => none

end

/-- Model of `json.loads`: one value, with only whitespace allowed
around it. -/
def json_loads (s : String) : Option Json :=
  match parseValue (4 * s.length + 16) s.toList with
  | some (j, rest) => if skipWsJ rest = [] then some j else none
  | none => none

/-! ### `gemini_agent._extract_first_json` -/

/-- Loop of `_extract_first_json`: walks the text with the current
index, the recorded start index of the candidate (Python `start`,
`none` = `None`) and the brace-stack depth (the Python stack holds only
`"{"`, so its length suffices).  On a balancing `}` the slice
`text[start:i+1]` is fed to `json.loads`; on a parse failure `start`
is reset to `None` and scanning continues, exactly as in the source. -/
def extractFirstJsonAux (full : List Char) :
    List Char → Nat → Option Nat → Nat → Option Json
  | [], _, _, _ => none
  | c :: rest, i, start, depth =>
      if c = '{' then
        extractFirstJsonAux full rest (i + 1)
          (match start with | none => some i | some s => some s) (depth + 1)
      else if c = '}' then
        if 0 < depth then
          if depth = 1 then
            match start with
            | some s =>
                let candidate := String.mk ((full.drop s).take (i + 1 - s))
                match json_loads candidate with
                | some j => some j
                | none => extractFirstJsonAux full rest (i + 1) none 0
            | none => extractFirstJsonAux full rest (i + 1) none 0
          else extractFirstJsonAux full rest (i + 1) start (depth - 1)
        else extractFirstJsonAux full rest (i + 1) start depth
      else extractFirstJsonAux full rest (i + 1) start depth

/-- Model of `_extract_first_json`: `none` models the raised
`ValueError("No valid JSON object found in LLM response.")`. -/
def extract_first_json (text : String) : Option Json :=
  extractFirstJsonAux text.toList text.toList 0 none 0

/-! ### Pattern engine for `_extract_candidates_for_concept`

The six `re.search` patterns of the source all have the shape
prefix-regex, then a greedy capture group of at least two characters
drawn from the class A-Z a-z 0-9 space underscore hyphen slash,
optionally followed by `\??`.  The
engine below reproduces Python's leftmost-match, first-alternative,
greedy-with-backtracking semantics for exactly the constructs those
patterns use: literals, alternation, `\s+`, and the final capture. -/

/-- Regex fragments used by the source's patterns. -/
inductive Pat where
  | lit (s : String)
  | seqP (p q : Pat)
  | altP (p q : Pat)
  | ws1
  | eps

/-- All ways a fragment can match a prefix of `cs`, as the list of
possible remainders in Python's backtracking priority order (first
alternative first, `\s+` longest first). -/
def matchPat : Pat → List Char → List (List Char)
  | .lit s, cs => if s.toList.isPrefixOf cs then [cs.drop s.length] else []
  | .seqP p q, cs => (matchPat p cs).flatMap (fun r => matchPat q r)
  | .altP p q, cs => matchPat p cs ++ matchPat q cs
  | .ws1, cs =>
      let n := (cs.takeWhile isSpc).length
      (List.range n).map (fun k => cs.drop (n - k))
  | .eps, cs => [cs]

/-- Character class of the capture groups: A-Z a-z 0-9 space
underscore hyphen slash. -/
def isClassChar (c : Char) : Bool :=
  c.isAlpha ∨ c.isDigit ∨ c = ' ' ∨ c = '_' ∨ c = '-' ∨ c = '/'

/-- A source pattern: fragment before the capture, capture class run of
length ≥ 2 (greedy), fragment after the capture. -/
structure SearchPat where
  pre : Pat
  post : Pat

/-- First `some` in a list, in priority order. -/
def firstSome {α β : Type} (f : α → Option β) : List α → Option β
  | [] => none
  | a :: rest =>
      match f a with
      | some b => some b
      | none => firstSome f rest

/-- Greedy capture with backtracking: try run lengths from the longest
down to 2, requiring `post` to match afterwards. -/
def tryCapture (post : Pat) (rem : List Char) : Option String :=
  let run := rem.takeWhile isClassChar
  firstSome
    (fun k =>
      if matchPat post (rem.drop k) = [] then none
      else some (String.mk (run.take k)))
    ((List.range run.length).map (fun j => run.length - j) |>.filter (fun k => 2 ≤ k))

/-- Match the whole pattern anchored at the head of `cs`, returning the
capture group. -/
def matchCaptureAt (sp : SearchPat) (cs : List Char) : Option String :=
  firstSome (fun rem => tryCapture sp.post rem) (matchPat sp.pre cs)

/-- `re.search`: try each start position left to right. -/
def searchPat (sp : SearchPat) : List Char → Option String
  | [] => matchCaptureAt sp []
  | c :: rest =>
      match matchCaptureAt sp (c :: rest) with
      | some g => some g
      | none => searchPat sp rest

/-- The six patterns of `_extract_candidates_for_concept`, in source
order.  The apostrophe alternative of pattern 2 is built from character
literals. -/
def conceptPatterns : List SearchPat :=
  [ -- (?:explain|explain\s+about)\s+(cls{2,})
    ⟨.seqP (.altP (.lit "explain")
        (.seqP (.lit "explain") (.seqP .ws1 (.lit "about")))) .ws1, .eps⟩,
    -- what(?:'s| is| are)\s+(cls{2,})\??
    ⟨.seqP (.lit "what")
        (.seqP (.altP (.lit (String.mk ['\'', 's']))
            (.altP (.lit " is") (.lit " are"))) .ws1),
      .altP (.lit "?") .eps⟩,
    -- tell me about\s+(cls{2,})
    ⟨.seqP (.lit "tell me about") .ws1, .eps⟩,
    -- struggling with\s+(cls{2,})
    ⟨.seqP (.lit "struggling with") .ws1, .eps⟩,
    -- practice problems (?:on|for)\s+(cls{2,})
    ⟨.seqP (.lit "practice problems ")
        (.seqP (.altP (.lit "on") (.lit "for")) .ws1), .eps⟩,
    -- need (?:help|practice) (?:with|on)\s+(cls{2,})
    ⟨.seqP (.lit "need ")
        (.seqP (.altP (.lit "help") (.lit "practice"))
          (.seqP (.lit " ")
            (.seqP (.altP (.lit "with") (.lit "on")) .ws1))), .eps⟩ ]

/-- Python `re.sub(r"[\.?,!]+$", "", cand)`: drop the trailing run of
sentence punctuation. -/
def stripTrailingPunct (s : String) : String :=
  String.mk ((s.toList.reverse.dropWhile
    (fun c => c = '.' ∨ c = '?' ∨ c = ',' ∨ c = '!')).reverse)

/-- Order-preserving dedup, as the source's `seen`-set loop. -/
def dedupeKeepOrder (xs : List String) : List String :=
  (xs.foldl (fun acc c => if acc.contains c then acc else acc ++ [c]) [])

/-- Model of `_extract_candidates_for_concept`. -/
def extract_candidates_for_concept (message : String) : List String :=
  let msg := pyStrip message
  let lower := toLowerS msg
  let fromPatterns :=
    conceptPatterns.filterMap (fun sp =>
      match searchPat sp lower.toList with
      | none => none
      | some g =>
          let cand := pyStrip (stripTrailingPunct (pyStrip g))
          if cand = "" then none else some cand)
  let candidates :=
    if fromPatterns = [] then
      if (splitWs msg).length ≤ 6 then [msg]
      else [joinSpace ((splitWs msg).take 6)]
    else fromPatterns
  dedupeKeepOrder candidates

/-! ### User context and mastery-level parsing -/

/-- The user-context mapping, projected to the two keys the pipeline
consults (`user_context.get("mastery_level_summary", ...)` and
`user_context.get("preferred_teaching_style", "")`); an absent field
models an absent dict key. -/
structure UserContext where
  mastery_level_summary : Option String
  preferred_teaching_style : Option String
deriving Inhabited, Repr

/-- Model of `_get_mastery_level_int`: first digit run of the summary,
default 4. -/
def get_mastery_level_int (ctx : UserContext) : Int :=
  match firstDigitRun (ctx.mastery_level_summary.getD "") with
  | some n => (n : Int)
  | none => 4

/-- The second mastery parse, inlined twice in `_infer_defaults`:
`int(user_context.get("mastery_level_summary", "Level 4").split()[1])`
with every failure (missing second token, non-integer token) caught and
defaulted to 4. -/
def masteryLevelFromSplit (ctx : UserContext) : Int :=
  match (splitWs (ctx.mastery_level_summary.getD "Level 4")).get? 1 with
  | none => 4
  | some tok =>
      match pyIntOfString tok with
      | some i => i
      | none => 4

/-! ### Schemas (`TOOL_PARAM_SCHEMAS`) and the jsonschema validator -/

/-- Primitive type descriptors appearing in the tool schemas. -/
inductive FType where
  | tstring
  | tboolean
  | tinteger
deriving Repr, DecidableEq

/-- One property entry of a tool schema: type plus the optional
`minimum` / `maximum` / `enum` constraints the source schemas use. -/
structure FieldSchema where
  ftype : FType
  fmin : Option Int := none
  fmax : Option Int := none
  fenum : Option (List String) := none
deriving Repr

/-- One tool's schema: `required` list and `properties` table. -/
structure ToolSchema where
  required : List String
  properties : List (String × FieldSchema)
deriving Repr

/-- Lookup in a literal string-keyed table (Python dict `.get`). -/
def lookupA {α : Type} : List (String × α) → String → Option α
  | [], _ => none
  | (k1, v) :: rest, k => if k1 = k then some v else lookupA rest k

/-- Schema of the `note_maker` tool. -/
def noteMakerSchema : ToolSchema :=
  { required := ["topic", "subject", "note_taking_style"],
    properties :=
      [ ("topic", { ftype := .tstring }),
        ("subject", { ftype := .tstring }),
        ("note_taking_style",
          { ftype := .tstring,
            fenum := some ["outline", "bullet_points", "narrative", "structured"] }),
        ("include_examples", { ftype := .tboolean }),
        ("include_analogies", { ftype := .tboolean }) ] }

/-- Schema of the `flashcard_generator` tool. -/
def flashcardSchema : ToolSchema :=
  { required := ["topic", "count", "difficulty", "subject"],
    properties :=
      [ ("topic", { ftype := .tstring }),
        ("count", { ftype := .tinteger, fmin := some 1, fmax := some 20 }),
        ("difficulty",
          { ftype := .tstring, fenum := some ["easy", "medium", "hard"] }),
        ("include_examples", { ftype := .tboolean }),
        ("subject", { ftype := .tstring }) ] }

/-- Schema of the `concept_explainer` tool. -/
def conceptExplainerSchema : ToolSchema :=
  { required := ["concept_to_explain", "current_topic", "desired_depth"],
    properties :=
      [ ("concept_to_explain", { ftype := .tstring }),
        ("current_topic", { ftype := .tstring }),
        ("desired_depth",
          { ftype := .tstring,
            fenum := some ["basic", "intermediate", "advanced", "comprehensive"] }),
        ("include_examples", { ftype := .tboolean }) ] }

/-- Model of `TOOL_PARAM_SCHEMAS` from `gemini_agent.py`. -/
def TOOL_PARAM_SCHEMAS : List (String × ToolSchema) :=
  [ ("note_maker", noteMakerSchema),
    ("flashcard_generator", flashcardSchema),
    ("concept_explainer", conceptExplainerSchema) ]

/-- Type check of a value against a declared primitive type.  Following
`jsonschema`, a boolean is not an integer. -/
def typeOk (v : Json) : FType → Bool
  | .tstring => match v with | .str _ => true | _ => false
  | .tboolean => match v with | .bool _ => true | _ => false
  | .tinteger => match v with | .num _ => true | _ => false

/-- Full check of a present property value against its descriptor. -/
def fieldOk (v : Json) (fs : FieldSchema) : Bool :=
  typeOk v fs.ftype
  && (match fs.fmin, v with
      | some m, .num n => decide (m ≤ n)
      | _, _ => true)
  && (match fs.fmax, v with
      | some m, .num n => decide (n ≤ m)
      | _, _ => true)
  && (match fs.fenum with
      | none => true
      | some es => match v with | .str s => es.contains s | _ => false)

/-- Check of one listed property: vacuous when the key is absent. -/
def propOk (inst : PDict) (k : String) (fs : FieldSchema) : Bool :=
  match lookupD inst k with
  | none => true
  | some v => fieldOk v fs

/-- Model of `jsonschema.validate(instance, schema)` for the object
schemas above: every required key present, every present listed
property conformant; extra properties are unconstrained.  `true` means
no `ValidationError` is raised. -/
def validateS (inst : PDict) (schema : ToolSchema) : Bool :=
  schema.required.all (fun k => (lookupD inst k).isSome)
  && schema.properties.all (fun kv => propOk inst kv.1 kv.2)

/-! ### `gemini_agent._infer_missing_parameters` -/

/-- Declared type of a tool's property, as consulted by the safety
pass: `TOOL_PARAM_SCHEMAS.get(tool, {}).get("properties", {}).get(k, {}).get("type")`. -/
def fallbackFType (tool k : String) : Option FType :=
  (lookupA TOOL_PARAM_SCHEMAS tool).bind
    (fun s => (lookupA s.properties k).map FieldSchema.ftype)

/-- The final safety pass of `_infer_missing_parameters`, applied to
one value: replace a `None` value by a type-appropriate fallback when
the schema declares a type for the key (`user_message` for strings —
the message is always a string here — `True` for booleans, `1` for
integers); values whose key has no declared type stay as they are. -/
def safetyFixVal (tool user_message k : String) (v : Json) : Json :=
  match v with
  | .null =>
      match fallbackFType tool k with
      | some .tstring => .str user_message
      | some .tboolean => .bool true
      | some .tinteger => .num 1
      | none => .null
  | v => v

/-- The safety pass on one dict entry (the in-place `filled[k] = ...`
assignment keeps the key). -/
def safetyFix (tool user_message : String) (kv : String × Json) :
    String × Json :=
  (kv.1, safetyFixVal tool user_message kv.1 kv.2)

/-- Model of `_infer_missing_parameters`.  `missing` is iterated as a
list (see the header note on Python set order); `chat_history` is
accepted and unused, as in the source. -/
def infer_missing_parameters (tool : String) (missing : List String)
    (user_message : String) (chat_history : Json) (ctx : UserContext)
    (params : PDict) : PDict :=
  let _ := chat_history
  let candidates := extract_candidates_for_concept user_message
  let filled := params
  let filled :=
    if tool = "concept_explainer" then
      missing.foldl (fun f key =>
        if key = "concept_to_explain" then
          insertD f key (.str (candidates.headD user_message))
        else if key = "current_topic" then
          insertD f key
            ((lookupD f "concept_to_explain").getD
              (.str (candidates.headD user_message)))
        else if key = "desired_depth" then
          let lvl := get_mastery_level_int ctx
          insertD f key (.str
            (if lvl ≤ 3 then "basic"
             else if lvl ≤ 6 then "intermediate"
             else "advanced"))
        else if key = "include_examples" then insertD f key (.bool true)
        else f) filled
    else if tool = "flashcard_generator" then
      missing.foldl (fun f key =>
        if key = "topic" then
          insertD f key (.str (candidates.headD user_message))
        else if key = "count" then insertD f key (.num 5)
        else if key = "difficulty" then
          let lvl := get_mastery_level_int ctx
          insertD f key (.str
            (if lvl ≤ 3 then "easy"
             else if lvl ≤ 6 then "medium"
             else "hard"))
        else if key = "subject" then
          insertD f key (.str (candidates.headD "general"))
        else if key = "include_examples" then insertD f key (.bool true)
        else f) filled
    else if tool = "note_maker" then
      missing.foldl (fun f key =>
        if key = "topic" then
          insertD f key (.str (candidates.headD user_message))
        else if key = "subject" then
          insertD f key (.str (candidates.headD "general"))
        else if key = "note_taking_style" then
          let pref := toLowerS (ctx.preferred_teaching_style.getD "")
          insertD f key (.str (if pref = "visual" then "structured" else "outline"))
        else if key = "include_examples" then insertD f key (.bool true)
        else if key = "include_analogies" then
          let pref := toLowerS (ctx.preferred_teaching_style.getD "")
          insertD f key (.bool (pref = "visual"))
        else f) filled
    else filled
  filled.map (safetyFix tool user_message)

/-! ### `gemini_agent.get_tool_decision` -/

/-- The distinct failures the pipeline can raise, one constructor per
`raise` site in the source (each is a generic `Exception` there, with a
distinguishing message). -/
inductive Err where
  | noJsonFound
  | missingTopLevelKeys
  | unknownTool (t : Json)
  | parametersNotADict
  | inferenceValidationFailed
  | rawValidationFailed
  | registryKeyError
  | finalValidationFailed
  | unconfiguredTool (t : String)
  | mockSynthesisError
deriving Repr

/-- A validated tool decision. -/
structure Decision where
  tool : String
  parameters : PDict
deriving Repr, Inhabited

/-- Registry membership check `tool not in TOOL_PARAM_SCHEMAS`: the
parsed `tool` value may be any JSON value; only a registered name
passes. -/
def lookupRegistry (t : Json) : Option (String × ToolSchema) :=
  match t with
  | .str s => (lookupA TOOL_PARAM_SCHEMAS s).map (fun sc => (s, sc))
  | _ => none

/-- Model of `get_tool_decision`.  The Gemini network round-trip
(`ask_gemini`) is modelled by its observable outcome `raw`, the text
the model returned; a transport failure there is fatal upstream of this
function and is not further modelled. -/
def get_tool_decision (user_message : String) (chat_history : Json)
    (ctx : UserContext) (raw : String) : Except Err Decision :=
  match extract_first_json raw with
  | none => .error .noJsonFound
  | some parsed =>
      match parsed with
      | .obj kvs =>
          match lookupD kvs "tool", lookupD kvs "parameters" with
          | some toolJ, some paramsJ =>
              match lookupRegistry toolJ with
              | none => .error (.unknownTool toolJ)
              | some (tool, schema) =>
                  match paramsJ with
                  | .obj params =>
                      let missing := schema.required.filter
                        (fun k => (lookupD params k).isNone)
                      if missing ≠ [] then
                        let inferred := infer_missing_parameters tool missing
                          user_message chat_history ctx params
                        if validateS inferred schema then .ok ⟨tool, inferred⟩
                        else .error .inferenceValidationFailed
                      else
                        if validateS params schema then .ok ⟨tool, params⟩
                        else .error .rawValidationFailed
                  | _ => .error .parametersNotADict
          | _, _ => .error .missingTopLevelKeys
      | _ => .error .missingTopLevelKeys

/-! ### `tool_executor` -/

/-- Model of `TOOL_ENDPOINTS`. -/
def TOOL_ENDPOINTS : List (String × String) :=
  [ ("note_maker", "http://localhost:8101/note_maker"),
    ("flashcard_generator", "http://localhost:8102/flashcards"),
    ("concept_explainer", "http://localhost:8103/explain") ]

/-- Single-quote character, for Python-style dict rendering. -/
def sq : String := String.mk ['\'']

/-- Python `str()` of a JSON-shaped value, depth-bounded; used only to
build the human-readable display strings of the mock response, which no
property below inspects. -/
def pyStrAux : Nat → Json → String
  | _, .null => "None"
  | _, .bool b => if b then "True" else "False"
  | _, .num n => toString n
  | _, .str s => s
  | 0, _ => ""
  | fuel + 1, .arr xs =>
      "[" ++ ", ".intercalate (xs.map (pyStrAux fuel)) ++ "]"
  | fuel + 1, .obj ms =>
      "\x7b" ++ ", ".intercalate (ms.map (fun kv =>
        sq ++ kv.1 ++ sq ++ ": " ++ pyStrAux fuel kv.2)) ++ "\x7d"

/-- Display rendering entry point. -/
def pyStr (j : Json) : String := pyStrAux 64 j

/-- Model of `_mock_response`.  The only statement in it that can raise
is `int(params.get("count", 5))` in the flashcard branch, modelled by
the `pyIntOfJson` failure case. -/
def mock_response (tool_name : String) (params : PDict) : Except Err Json :=
  if tool_name = "note_maker" then
    let topic := (lookupD params "topic").getD (.str "general")
    .ok (.obj
      [ ("topic", topic),
        ("title", .str ("Notes: " ++ pyStr topic)),
        ("summary", .str ("Auto-generated notes for " ++ pyStr topic ++ ".")),
        ("note_sections", .arr
          [ .obj
              [ ("title", .str "Key idea"),
                ("content", .str "Concept explained"),
                ("key_points", .arr [.str "p1", .str "p2"]),
                ("examples", .arr []) ] ]),
        ("note_taking_style",
          (lookupD params "note_taking_style").getD (.str "structured")) ])
  else if tool_name = "flashcard_generator" then
    match pyIntOfJson ((lookupD params "count").getD (.num 5)) with
    | none => .error .mockSynthesisError
    | some count =>
        let topicQ := (lookupD params "topic").getD (.str "Q")
        .ok (.obj
          [ ("topic", (lookupD params "topic").getD (.str "general")),
            ("flashcards", .arr ((List.range (min 20 count).toNat).map (fun i =>
              .obj
                [ ("title", .str (pyStr topicQ ++ " #" ++ toString (i + 1))),
                  ("question", .str ("Q" ++ toString (i + 1))),
                  ("answer", .str ("A" ++ toString (i + 1))),
                  ("example", .str "") ]))),
            ("difficulty", (lookupD params "difficulty").getD (.str "medium")),
            ("adaptation_details", .str "mocked") ])
  else if tool_name = "concept_explainer" then
    .ok (.obj
      [ ("explanation", .str ("A concise explanation of "
          ++ pyStr ((lookupD params "concept_to_explain").getD (.str "the concept"))
          ++ ".")),
        ("examples", .arr [.str "Example 1", .str "Example 2"]),
        ("related_concepts", .arr [.str "related 1", .str "related 2"]),
        ("practice_questions", .arr [.str "Q1", .str "Q2"]) ])
  else .ok (.obj [("result", .str "unknown tool")])

/-- Model of `execute_tool`.  The outbound HTTP call is modelled by its
observable outcome: `some j` for a success whose body decodes to `j`,
`none` for any failure (timeout, connection error, non-success status,
body-decode error) — every such failure is caught by the source's
`except` and answered with the mock.  The missing-endpoint `raise`
happens before the `try` block and is the `unconfiguredTool` error. -/
def execute_tool (tool_name : String) (parameters : PDict)
    (callOutcome : Option Json) : Except Err Json :=
  match lookupA TOOL_ENDPOINTS tool_name with
  | none => .error (.unconfiguredTool tool_name)
  | some _ =>
      match callOutcome with
      | some j => .ok j
      | none => mock_response tool_name parameters

/-! ### `orchestrator_core` -/

/-- The user-context dict as the JSON value attached under
`"user_info"` (its two modelled keys; only object-ness is ever
checked). -/
def userContextJson (ctx : UserContext) : Json :=
  .obj ((match ctx.mastery_level_summary with
         | some s => [("mastery_level_summary", Json.str s)]
         | none => []) ++
        (match ctx.preferred_teaching_style with
         | some s => [("preferred_teaching_style", Json.str s)]
         | none => []))

/-- Model of `_infer_defaults`: the post-merge `setdefault` layer. -/
def infer_defaults (parameters : PDict) (tool : String) (ctx : UserContext) :
    PDict :=
  let params := parameters
  let params :=
    if tool = "flashcard_generator" then
      let params := setdefaultD params "count" (.num 5)
      let lvl := masteryLevelFromSplit ctx
      if lvl ≤ 3 then setdefaultD params "difficulty" (.str "easy")
      else if lvl ≤ 6 then setdefaultD params "difficulty" (.str "medium")
      else setdefaultD params "difficulty" (.str "hard")
    else params
  let params :=
    if tool = "note_maker" then
      let pref := toLowerS (ctx.preferred_teaching_style.getD "")
      if pref = "visual" then
        let params := setdefaultD params "note_taking_style" (.str "structured")
        let params := setdefaultD params "include_examples" (.bool true)
        setdefaultD params "include_analogies" (.bool true)
      else
        let params := setdefaultD params "note_taking_style"
          ((lookupD params "note_taking_style").getD (.str "outline"))
        let params := setdefaultD params "include_examples" (.bool true)
        setdefaultD params "include_analogies" (.bool false)
    else params
  let params :=
    if tool = "concept_explainer" then
      let lvl := masteryLevelFromSplit ctx
      let params :=
        if lvl ≤ 3 then setdefaultD params "desired_depth" (.str "basic")
        else if lvl ≤ 6 then setdefaultD params "desired_depth" (.str "intermediate")
        else setdefaultD params "desired_depth" (.str "advanced")
      setdefaultD params "include_examples" (.bool true)
    else params
  params

/-- The final orchestration result `{tool, parameters, result}`. -/
structure OrchResult where
  tool : String
  parameters : PDict
  result : Json
deriving Repr, Inhabited

/-- The tool-scoped subset of the merged parameters, as built before
the last validation: only keys named in the tool schema's properties. -/
def toolScopedParams (schema : ToolSchema) (params : PDict) : PDict :=
  params.filter (fun kv => (lookupA schema.properties kv.1).isSome)

/-- First validation of the final block: the merged parameters must
contain `"user_info"` and it must be an object. -/
def userInfoCheck (params : PDict) : Bool :=
  match lookupD params "user_info" with
  | some (.obj _) => true
  | _ => false

/-- Model of `orchestrate_with_gemini`.  `raw` is the Gemini reply
text and `callOutcome` the outbound tool call's outcome, as above.  The
source's second validation call is a no-op placeholder (`schema =
{"type":"object"}` against a dict) and imposes nothing. -/
def orchestrate_with_gemini (message : String) (chat_history : Json)
    (ctx : UserContext) (raw : String) (callOutcome : Option Json) :
    Except Err OrchResult :=
  match get_tool_decision message chat_history ctx raw with
  | .error e => .error e
  | .ok decision =>
      let parameters := insertD decision.parameters "user_info" (userContextJson ctx)
      let parameters := insertD parameters "chat_history" chat_history
      let parameters := infer_defaults parameters decision.tool ctx
      match lookupA TOOL_PARAM_SCHEMAS decision.tool with
      | none => .error .registryKeyError
      | some tool_schema =>
          if userInfoCheck parameters
              && validateS (toolScopedParams tool_schema parameters) tool_schema then
            match execute_tool decision.tool parameters callOutcome with
            | .error e => .error e
            | .ok result => .ok ⟨decision.tool, parameters, result⟩
          else .error .finalValidationFailed

/-! ### Definitions used in the claim statements -/

/-- Spec-side notion of raw brace balance: the running count of
unmatched braces never goes negative and ends at zero, with at least
one brace present. -/
def braceBalanced (s : String) : Bool :=
  let step : Option Nat → Char → Option Nat := fun acc c =>
    match acc with
    | none => none
    | some d =>
        if c = '{' then some (d + 1)
        else if c = '}' then (if d = 0 then none else some (d - 1))
        else some d
  match s.toList.foldl step (some 0) with
  | some 0 => s.toList.contains '{'
  | _ => false

/-- A complete valid JSON object whose string value contains a closing
and an opening brace: the whole text is brace-balanced and parses, yet
the scanner of `_extract_first_json` counts the brace inside the string
literal, truncates the candidate there, and ends up reporting that no
JSON object exists. -/
def c1text : String := "\x7b\"a\": \"\x7dx\x7b\"\x7d"

/-- The flashcard mock's only fallible step: `int(params.get("count", 5))`. -/
def countConvertible (params : PDict) : Bool :=
  (pyIntOfJson ((lookupD params "count").getD (.num 5))).isSome

/-- Raw model reply of the end-to-end scenario. -/
def c9raw : String :=
  "\x7b\"tool\": \"flashcard_generator\", \"parameters\": \x7b\"topic\": \"derivatives\"\x7d\x7d"

/-- User context of the end-to-end scenario (the stub profile of
`state_manager.py`). -/
def c9ctx : UserContext :=
  ⟨some "Level 4: Building foundational knowledge", some "visual"⟩

/-- The only fields the post-merge pass may add. -/
def inferDefaultTargets : List String :=
  ["count", "difficulty", "desired_depth", "note_taking_style",
   "include_examples", "include_analogies"]

/-- Tool-scoped final validation as one total check: the tool's schema
exists and the schema-named subset of the parameters satisfies it. -/
def toolScopedValid (tool : String) (params : PDict) : Bool :=
  match lookupA TOOL_PARAM_SCHEMAS tool with
  | none => false
  | some schema => validateS (toolScopedParams schema params) schema

/-- Witness for C6: the end-to-end flashcard run reaches dispatch. -/
def c6res : OrchResult :=
  match orchestrate_with_gemini "I need practice problems on derivatives"
      (.arr []) c9ctx c9raw (some (.obj [])) with
  | .ok r => r
  | .error _ => default

/-- The property half of validation on its own: every present listed
property conforms to its descriptor. -/
def propsConform (params : PDict) (schema : ToolSchema) : Bool :=
  schema.properties.all (fun kv => propOk params kv.1 kv.2)

/-! ### Dict lemmas -/

theorem lookupD_insertD (d : PDict) (k1 : String) (v : Json) (k : String) :
    lookupD (insertD d k1 v) k = if k1 = k then some v else lookupD d k := by
  induction d with
  | nil =>
      by_cases h : k1 = k <;> simp [insertD, lookupD, h]
  | cons kv rest ih =>
      obtain ⟨k2, v2⟩ := kv
      by_cases h2 : k2 = k1
      · subst h2
        by_cases h : k2 = k <;> simp [insertD, lookupD, h]
      · by_cases h : k2 = k
        · subst h
          have hk1 : ¬ k1 = k2 := fun e => h2 e.symm
          simp [insertD, lookupD, h2, hk1]
        · simp [insertD, lookupD, h2, h, ih]

theorem lookupD_setdefaultD (d : PDict) (k1 : String) (v : Json) (k : String) :
    lookupD (setdefaultD d k1 v) k =
      if k1 = k then some ((lookupD d k).getD v) else lookupD d k := by
  unfold setdefaultD
  by_cases h : k1 = k
  · subst h
    cases hc : lookupD d k1 with
    | none => simp [lookupD_insertD, hc]
    | some w => simp [hc]
  · cases hc : lookupD d k1 with
    | none => simp [lookupD_insertD, h]
    | some w => simp [h]

theorem lookupD_map_safetyFix (t u : String) (d : PDict) (k : String) :
    lookupD (d.map (safetyFix t u)) k =
      (lookupD d k).map (safetyFixVal t u k) := by
  induction d with
  | nil => rfl
  | cons kv rest ih =>
      obtain ⟨k1, v1⟩ := kv
      by_cases h : k1 = k
      · subst h
        simp [safetyFix, lookupD]
      · simp [safetyFix, lookupD, h, ih]

theorem safetyFixVal_str (t u k s : String) :
    safetyFixVal t u k (.str s) = .str s := rfl

theorem safetyFixVal_bool (t u k : String) (b : Bool) :
    safetyFixVal t u k (.bool b) = .bool b := rfl

theorem safetyFixVal_num (t u k : String) (n : Int) :
    safetyFixVal t u k (.num n) = .num n := rfl

/-- Membership of an association-list lookup result. -/
theorem lookupA_mem {α : Type} (l : List (String × α)) (k : String) (v : α)
    (h : lookupA l k = some v) : (k, v) ∈ l := by
  induction l with
  | nil => simp [lookupA] at h
  | cons kv rest ih =>
      obtain ⟨k1, v1⟩ := kv
      by_cases hk : k1 = k
      · subst hk
        simp [lookupA] at h
        simp [h]
      · simp only [lookupA, if_neg hk] at h
        exact List.mem_cons_of_mem _ (ih h)

/-- Under duplicate-free keys (the Python-dict invariant), membership
determines the lookup. -/
theorem lookupD_of_mem_nodup (d : PDict) (k : String) (v : Json)
    (hnd : (d.map Prod.fst).Nodup) (h : (k, v) ∈ d) :
    lookupD d k = some v := by
  induction d with
  | nil => simp at h
  | cons kv rest ih =>
      obtain ⟨k1, v1⟩ := kv
      simp only [List.map_cons, List.nodup_cons] at hnd
      rcases List.mem_cons.mp h with he | hm
      · have e1 : k = k1 := congrArg Prod.fst he
        have e2 : v = v1 := congrArg Prod.snd he
        subst e1
        subst e2
        simp [lookupD]
      · have hk : k1 ≠ k := by
          intro e
          subst e
          exact hnd.1 (List.mem_map.mpr ⟨(k1, v), hm, rfl⟩)
        simp only [lookupD, if_neg hk]
        exact ih hnd.2 hm

/-! ### Claim C1: robustness of the first-JSON extraction -/



/-- C1: the extraction is not robust to braces inside JSON string
values.  `c1text` is itself a brace-balanced, parseable JSON object
(so the claimed contract requires its parsed value to be returned),
but `_extract_first_json` raises `NoJsonFound` on it. -/
theorem extract_first_json_misses_string_braces :
    braceBalanced c1text = true
    ∧ json_loads c1text = some (.obj [("a", .str "\x7dx\x7b")])
    ∧ extract_first_json c1text = none :=
  ⟨rfl, rfl, rfl⟩

/-! ### Claim C2: dispatch fallback behaviour -/

/-- C2 counterexamples: an unconfigured tool name makes `execute_tool`
raise instead of falling back to the mock, and the mock synthesis
itself raises when the supplied `count` is not `int()`-convertible
(the failure then propagates out of `execute_tool` too). -/
theorem execute_tool_can_raise :
    execute_tool "quiz_generator" [] none
      = .error (.unconfiguredTool "quiz_generator")
    ∧ mock_response "flashcard_generator" [("count", .str "abc")]
      = .error .mockSynthesisError
    ∧ execute_tool "flashcard_generator" [("count", .str "abc")] none
      = .error .mockSynthesisError :=
  ⟨rfl, rfl, rfl⟩



/-- C2 (amended): for a tool name with a configured endpoint, any
outbound-call failure is resolved by the deterministic mock, and the
mock synthesis succeeds whenever `count` (only consulted for
`flashcard_generator`) is `int()`-convertible. -/
theorem execute_tool_falls_back_when_configured (tool : String) (params : PDict)
    (he : (lookupA TOOL_ENDPOINTS tool).isSome = true)
    (hc : tool = "flashcard_generator" → countConvertible params = true) :
    execute_tool tool params none = mock_response tool params
    ∧ ∃ j, mock_response tool params = .ok j := by
  by_cases h1 : "note_maker" = tool
  · subst h1
    exact ⟨rfl, ⟨_, rfl⟩⟩
  · by_cases h2 : "flashcard_generator" = tool
    · subst h2
      refine ⟨rfl, ?_⟩
      have hcc := hc rfl
      unfold countConvertible at hcc
      obtain ⟨i, hi⟩ := Option.isSome_iff_exists.mp hcc
      unfold mock_response
      rw [if_neg (by decide), if_pos rfl, hi]
      exact ⟨_, rfl⟩
    · by_cases h3 : "concept_explainer" = tool
      · subst h3
        exact ⟨rfl, ⟨_, rfl⟩⟩
      · exfalso
        simp only [TOOL_ENDPOINTS, lookupA, if_neg h1, if_neg h2, if_neg h3] at he
        simp at he

/-- Witness for the amended C2 at a concrete configured tool and
convertible count. -/
theorem execute_tool_falls_back_when_configured_witness :
    execute_tool "flashcard_generator" [("count", .num 3)] none
      = mock_response "flashcard_generator" [("count", .num 3)]
    ∧ ∃ j, mock_response "flashcard_generator" [("count", .num 3)] = .ok j :=
  execute_tool_falls_back_when_configured "flashcard_generator"
    [("count", .num 3)] rfl (fun _ => rfl)

/-! ### Claim C5: unknown tool is rejected before inference -/

/-- C5: when the extracted decision names a tool that is not a registry
key, `get_tool_decision` fails with the unknown-tool error (whatever
the parameters are — no inference or validation is consulted), and the
orchestration pipeline aborts with that same error for every possible
dispatch outcome, so no dispatch occurs. -/
theorem unknown_tool_rejected_before_inference
    (msg : String) (chat : Json) (ctx : UserContext) (raw : String)
    (outcome : Option Json) (kvs : List (String × Json)) (toolJ paramsJ : Json)
    (hx : extract_first_json raw = some (.obj kvs))
    (ht : lookupD kvs "tool" = some toolJ)
    (hp : lookupD kvs "parameters" = some paramsJ)
    (hu : lookupRegistry toolJ = none) :
    get_tool_decision msg chat ctx raw = .error (.unknownTool toolJ)
    ∧ orchestrate_with_gemini msg chat ctx raw outcome
      = .error (.unknownTool toolJ) := by
  have hd : get_tool_decision msg chat ctx raw = .error (.unknownTool toolJ) := by
    unfold get_tool_decision
    rw [hx]
    simp only [ht, hp, hu]
  refine ⟨hd, ?_⟩
  unfold orchestrate_with_gemini
  rw [hd]

/-- Witness for C5: a decision naming `quiz_maker`. -/
theorem unknown_tool_rejected_before_inference_witness :
    get_tool_decision "m" (.arr []) ⟨none, none⟩
        "\x7b\"tool\": \"quiz_maker\", \"parameters\": \x7b\x7d\x7d"
      = .error (.unknownTool (.str "quiz_maker"))
    ∧ orchestrate_with_gemini "m" (.arr []) ⟨none, none⟩
        "\x7b\"tool\": \"quiz_maker\", \"parameters\": \x7b\x7d\x7d" (some .null)
      = .error (.unknownTool (.str "quiz_maker")) :=
  unknown_tool_rejected_before_inference "m" (.arr []) ⟨none, none⟩
    "\x7b\"tool\": \"quiz_maker\", \"parameters\": \x7b\x7d\x7d"
    (some .null) [("tool", .str "quiz_maker"), ("parameters", .obj [])]
    (.str "quiz_maker") (.obj []) rfl rfl rfl rfl

/-! ### Claim C9: the end-to-end flashcard scenario -/



/-- C9: for the message about practice problems on derivatives, a
Level-4 context, and a flashcard decision carrying only the topic, the
final dispatched parameters hold `count = 5`, `difficulty = "medium"`
and `subject = "derivatives"`, the extracted topic candidate. -/
theorem end_to_end_flashcard_scenario :
    (orchestrate_with_gemini "I need practice problems on derivatives"
        (.arr []) c9ctx c9raw (some (.obj []))).map
      (fun r => (lookupD r.parameters "count", lookupD r.parameters "difficulty",
                 lookupD r.parameters "subject"))
      = .ok (some (.num 5), some (.str "medium"), some (.str "derivatives"))
    ∧ extract_candidates_for_concept "I need practice problems on derivatives"
      = ["derivatives"] :=
  ⟨rfl, rfl⟩

/-! ### Claim C10: the post-merge mastery parse -/

/-- C10: the post-merge layer parses the mastery level as `int()` of
the second whitespace-separated token of the summary; when that parse
succeeds the token's value is the level, and when the second token is
not an `int()`-parseable literal (the documented `"Level N: ..."`
format attaches a colon to the digits) the level defaults to 4, so the
middle tier is selected regardless of the stated digits. -/
theorem post_merge_mastery_parse (ctx : UserContext) (params : PDict) :
    (∀ tok i,
        (splitWs (ctx.mastery_level_summary.getD "Level 4")).get? 1 = some tok →
        pyIntOfString tok = some i →
        masteryLevelFromSplit ctx = i)
    ∧ ((∀ tok,
          (splitWs (ctx.mastery_level_summary.getD "Level 4")).get? 1 = some tok →
          pyIntOfString tok = none) →
        masteryLevelFromSplit ctx = 4
        ∧ (lookupD params "difficulty" = none →
            lookupD (infer_defaults params "flashcard_generator" ctx) "difficulty"
              = some (.str "medium"))
        ∧ (lookupD params "desired_depth" = none →
            lookupD (infer_defaults params "concept_explainer" ctx) "desired_depth"
              = some (.str "intermediate"))) := by
  constructor
  · intro tok i htok hint
    unfold masteryLevelFromSplit
    rw [htok]
    simp only [hint]
  · intro hfail
    have hlvl : masteryLevelFromSplit ctx = 4 := by
      unfold masteryLevelFromSplit
      cases htok : (splitWs (ctx.mastery_level_summary.getD "Level 4")).get? 1 with
      | none => rfl
      | some tok => simp only [hfail tok htok]
    have h3 : ¬ (masteryLevelFromSplit ctx ≤ 3) := by rw [hlvl]; decide
    have h6 : masteryLevelFromSplit ctx ≤ 6 := by rw [hlvl]; decide
    refine ⟨hlvl, ?_, ?_⟩
    · intro hd
      unfold infer_defaults
      simp [h3, h6, lookupD_setdefaultD, hd]
    · intro hq
      unfold infer_defaults
      simp [h3, h6, lookupD_setdefaultD, hq]

/-- Witness for C10, on the documented summary format with a high
stated level: the colon defeats the parse and the middle tier is chosen
although the first digit run says 9. -/
theorem post_merge_mastery_parse_witness :
    masteryLevelFromSplit ⟨some "Level 9: expert", none⟩ = 4
    ∧ lookupD (infer_defaults [] "flashcard_generator" ⟨some "Level 9: expert", none⟩)
        "difficulty" = some (.str "medium") := by
  have h := (post_merge_mastery_parse ⟨some "Level 9: expert", none⟩ []).2
    (fun tok htok => by
      cases Option.some.inj (htok : some "9:" = some tok)
      rfl)
  exact ⟨h.1, h.2.1 rfl⟩

/-! ### Claim C3: the two mastery tiers layers -/

/-- C3 counterexample: on the summary `"Level 9: expert"` the first
digit run is 9, the inference layer maps it to the hardest tier, but
the post-merge layer's different parse (second whitespace token,
defeated by the colon) defaults to 4 and selects the middle tier — the
two layers do not extract the level identically. -/
theorem mastery_layers_disagree :
    get_mastery_level_int ⟨some "Level 9: expert", none⟩ = 9
    ∧ lookupD (infer_missing_parameters "flashcard_generator" ["difficulty"]
        "m" (.arr []) ⟨some "Level 9: expert", none⟩ []) "difficulty"
      = some (.str "hard")
    ∧ lookupD (infer_defaults [] "flashcard_generator" ⟨some "Level 9: expert", none⟩)
        "difficulty" = some (.str "medium") :=
  ⟨rfl, rfl, rfl⟩

/-- C3 (amended): the threshold mapping (level at most 3 easiest tier,
4 to 6 middle tier, 7 or more hardest tier) is identical in both
defaulting layers and for both level-driven tools; the inference layer
extracts the level as the first digit run of the summary (defaulting to
4 when absent or digit-free), while the post-merge layer parses `int()`
of the second whitespace-separated token (defaulting to 4 on failure). -/
theorem mastery_tiers_threshold_exact (ctx : UserContext) (msg : String)
    (chat : Json) (params : PDict)
    (hd : lookupD params "difficulty" = none)
    (hq : lookupD params "desired_depth" = none) :
    (lookupD (infer_missing_parameters "flashcard_generator" ["difficulty"]
        msg chat ctx params) "difficulty"
      = some (.str (if get_mastery_level_int ctx ≤ 3 then "easy"
          else if get_mastery_level_int ctx ≤ 6 then "medium" else "hard")))
    ∧ (lookupD (infer_missing_parameters "concept_explainer" ["desired_depth"]
        msg chat ctx params) "desired_depth"
      = some (.str (if get_mastery_level_int ctx ≤ 3 then "basic"
          else if get_mastery_level_int ctx ≤ 6 then "intermediate" else "advanced")))
    ∧ (lookupD (infer_defaults params "flashcard_generator" ctx) "difficulty"
      = some (.str (if masteryLevelFromSplit ctx ≤ 3 then "easy"
          else if masteryLevelFromSplit ctx ≤ 6 then "medium" else "hard")))
    ∧ (lookupD (infer_defaults params "concept_explainer" ctx) "desired_depth"
      = some (.str (if masteryLevelFromSplit ctx ≤ 3 then "basic"
          else if masteryLevelFromSplit ctx ≤ 6 then "intermediate" else "advanced")))
    ∧ (ctx.mastery_level_summary = none →
        get_mastery_level_int ctx = 4 ∧ masteryLevelFromSplit ctx = 4)
    ∧ (firstDigitRun (ctx.mastery_level_summary.getD "") = none →
        get_mastery_level_int ctx = 4) := by
  refine ⟨?_, ?_, ?_, ?_, ?_, ?_⟩
  · simp [infer_missing_parameters, lookupD_map_safetyFix, lookupD_insertD,
      safetyFixVal]
  · simp [infer_missing_parameters, lookupD_map_safetyFix, lookupD_insertD,
      safetyFixVal]
  · unfold infer_defaults
    by_cases h1 : masteryLevelFromSplit ctx ≤ 3
    · simp [h1, lookupD_setdefaultD, hd]
    · by_cases h2 : masteryLevelFromSplit ctx ≤ 6 <;>
        simp [h1, h2, lookupD_setdefaultD, hd]
  · unfold infer_defaults
    by_cases h1 : masteryLevelFromSplit ctx ≤ 3
    · simp [h1, lookupD_setdefaultD, hq]
    · by_cases h2 : masteryLevelFromSplit ctx ≤ 6 <;>
        simp [h1, h2, lookupD_setdefaultD, hq]
  · intro habs
    constructor
    · unfold get_mastery_level_int
      rw [habs]
      rfl
    · unfold masteryLevelFromSplit
      rw [habs]
      rfl
  · intro hnodigit
    unfold get_mastery_level_int
    rw [hnodigit]

/-- Witness for the amended C3 on a context whose the two parses give
different levels (first digit run 9, split-token parse defaulted 4). -/
theorem mastery_tiers_threshold_exact_witness :
    lookupD (infer_missing_parameters "flashcard_generator" ["difficulty"]
        "m" (.arr []) ⟨some "Level 9: expert", none⟩ []) "difficulty"
      = some (.str (if get_mastery_level_int ⟨some "Level 9: expert", none⟩ ≤ 3
          then "easy"
          else if get_mastery_level_int ⟨some "Level 9: expert", none⟩ ≤ 6
          then "medium" else "hard"))
    ∧ lookupD (infer_defaults [] "flashcard_generator" ⟨some "Level 9: expert", none⟩)
        "difficulty"
      = some (.str (if masteryLevelFromSplit ⟨some "Level 9: expert", none⟩ ≤ 3
          then "easy"
          else if masteryLevelFromSplit ⟨some "Level 9: expert", none⟩ ≤ 6
          then "medium" else "hard")) :=
  ⟨(mastery_tiers_threshold_exact ⟨some "Level 9: expert", none⟩ "m" (.arr []) []
      rfl rfl).1,
   (mastery_tiers_threshold_exact ⟨some "Level 9: expert", none⟩ "m" (.arr []) []
      rfl rfl).2.2.1⟩

/-! ### Claim C4: teaching-style defaulting for the note maker -/

/-- C4: in both defaulting layers, a (case-insensitively) "visual"
preferred teaching style yields `note_taking_style = "structured"` and
`include_analogies = true`, and any other style yields `"outline"` and
`false`: shown for the inference layer with the two fields in the
missing set, and for the post-merge layer with the two fields absent. -/
theorem visual_style_note_defaults (ctx : UserContext) (msg : String)
    (chat : Json) (params : PDict)
    (hs : lookupD params "note_taking_style" = none)
    (ha : lookupD params "include_analogies" = none) :
    (lookupD (infer_missing_parameters "note_maker"
        ["note_taking_style", "include_analogies"] msg chat ctx params)
        "note_taking_style"
      = some (.str (if toLowerS (ctx.preferred_teaching_style.getD "") = "visual"
          then "structured" else "outline")))
    ∧ (lookupD (infer_missing_parameters "note_maker"
        ["note_taking_style", "include_analogies"] msg chat ctx params)
        "include_analogies"
      = some (.bool (toLowerS (ctx.preferred_teaching_style.getD "") = "visual")))
    ∧ (lookupD (infer_defaults params "note_maker" ctx) "note_taking_style"
      = some (.str (if toLowerS (ctx.preferred_teaching_style.getD "") = "visual"
          then "structured" else "outline")))
    ∧ (lookupD (infer_defaults params "note_maker" ctx) "include_analogies"
      = some (.bool (toLowerS (ctx.preferred_teaching_style.getD "") = "visual"))) := by
  refine ⟨?_, ?_, ?_, ?_⟩
  · simp [infer_missing_parameters, lookupD_map_safetyFix, lookupD_insertD,
      safetyFixVal]
  · simp [infer_missing_parameters, lookupD_map_safetyFix, lookupD_insertD,
      safetyFixVal]
  · by_cases hv : toLowerS (ctx.preferred_teaching_style.getD "") = "visual" <;>
      simp [infer_defaults, hv, lookupD_setdefaultD, hs]
  · by_cases hv : toLowerS (ctx.preferred_teaching_style.getD "") = "visual" <;>
      simp [infer_defaults, hv, lookupD_setdefaultD, ha]

/-- Witness for C4 on a mixed-case visual context. -/
theorem visual_style_note_defaults_witness :
    lookupD (infer_missing_parameters "note_maker"
        ["note_taking_style", "include_analogies"] "m" (.arr [])
        ⟨none, some "ViSuAl"⟩ []) "note_taking_style" = some (.str "structured")
    ∧ lookupD (infer_missing_parameters "note_maker"
        ["note_taking_style", "include_analogies"] "m" (.arr [])
        ⟨none, some "ViSuAl"⟩ []) "include_analogies" = some (.bool true)
    ∧ lookupD (infer_defaults [] "note_maker" ⟨none, some "ViSuAl"⟩)
        "note_taking_style" = some (.str "structured")
    ∧ lookupD (infer_defaults [] "note_maker" ⟨none, some "ViSuAl"⟩)
        "include_analogies" = some (.bool true) :=
  ⟨(visual_style_note_defaults ⟨none, some "ViSuAl"⟩ "m" (.arr []) [] rfl rfl).1,
   (visual_style_note_defaults ⟨none, some "ViSuAl"⟩ "m" (.arr []) [] rfl rfl).2.1,
   (visual_style_note_defaults ⟨none, some "ViSuAl"⟩ "m" (.arr []) [] rfl rfl).2.2.1,
   (visual_style_note_defaults ⟨none, some "ViSuAl"⟩ "m" (.arr []) [] rfl rfl).2.2.2⟩

/-! ### Claim C7: frame property of the post-merge defaulting -/



/-- C7: `_infer_defaults` never changes a field that is already
present, and never touches any field outside its six default targets. -/
theorem infer_defaults_frame (parameters : PDict) (tool : String)
    (ctx : UserContext) (k : String) :
    ((lookupD parameters k).isSome = true →
        lookupD (infer_defaults parameters tool ctx) k = lookupD parameters k)
    ∧ (k ∉ inferDefaultTargets →
        lookupD (infer_defaults parameters tool ctx) k = lookupD parameters k) := by
  constructor
  · intro h
    obtain ⟨w, hw⟩ := Option.isSome_iff_exists.mp h
    unfold infer_defaults
    simp [lookupD_setdefaultD, hw, apply_ite (fun d : PDict => lookupD d k)]
  · intro h
    simp only [inferDefaultTargets, List.mem_cons, List.not_mem_nil, or_false,
      not_or] at h
    obtain ⟨h1, h2, h3, h4, h5, h6⟩ := h
    unfold infer_defaults
    simp [lookupD_setdefaultD, apply_ite (fun d : PDict => lookupD d k),
      Ne.symm h1, Ne.symm h2, Ne.symm h3, Ne.symm h4, Ne.symm h5, Ne.symm h6]

/-- Witness for C7: a present `count` is preserved, and a non-target
field (`topic`) is untouched. -/
theorem infer_defaults_frame_witness :
    lookupD (infer_defaults [("count", .num 7)] "flashcard_generator" ⟨none, none⟩)
        "count" = lookupD [("count", .num 7)] "count"
    ∧ lookupD (infer_defaults [("count", .num 7)] "flashcard_generator" ⟨none, none⟩)
        "topic" = lookupD [("count", .num 7)] "topic" :=
  ⟨(infer_defaults_frame [("count", .num 7)] "flashcard_generator" ⟨none, none⟩
      "count").1 rfl,
   (infer_defaults_frame [("count", .num 7)] "flashcard_generator" ⟨none, none⟩
      "topic").2 (by decide)⟩

/-! ### Claim C6: dispatch happens only after tool-scoped validation -/



/-- C6: whenever the pipeline reaches dispatch (returns a result), the
tool-scoped subset of the dispatched parameter mapping — exactly the
mapping carried in the result — has passed validation against the
chosen tool's schema after all inference and context merging. -/
theorem dispatch_implies_tool_scoped_validated (msg : String) (chat : Json)
    (ctx : UserContext) (raw : String) (outcome : Option Json) (r : OrchResult)
    (h : orchestrate_with_gemini msg chat ctx raw outcome = .ok r) :
    toolScopedValid r.tool r.parameters = true := by
  unfold orchestrate_with_gemini at h
  split at h
  · exact Except.noConfusion h
  · rename_i d hd
    split at h
    · exact Except.noConfusion h
    · rename_i ts hts
      dsimp only at h
      split at h
      · rename_i hv
        split at h
        · exact Except.noConfusion h
        · rename_i res hres
          have hr := Except.ok.inj h
          subst hr
          simp only [toolScopedValid, hts]
          exact ((Bool.and_eq_true _ _).mp hv).2
      · exact Except.noConfusion h



/-- Closed instantiation of C6 on that concrete successful run. -/
theorem dispatch_implies_tool_scoped_validated_witness :
    toolScopedValid c6res.tool c6res.parameters = true :=
  dispatch_implies_tool_scoped_validated "I need practice problems on derivatives"
    (.arr []) c9ctx c9raw (some (.obj [])) c6res rfl

/-! ### Claim C8: inference fills required fields; re-inference is a no-op -/



theorem fieldOk_null (fs : FieldSchema) : fieldOk .null fs = false := by
  obtain ⟨ft, mn, mx, en⟩ := fs
  cases ft <;> rfl

theorem safetyFixVal_of_fieldOk (t u k : String) (v : Json) (fs : FieldSchema)
    (h : fieldOk v fs = true) : safetyFixVal t u k v = v := by
  cases v with
  | null => rw [fieldOk_null] at h; exact absurd h (by simp)
  | bool b => rfl
  | num n => rfl
  | str s => rfl
  | arr xs => rfl
  | obj ms => rfl

theorem propOk_map_safetyFix (t u : String) (d : PDict) (k : String)
    (fs : FieldSchema) (h : propOk d k fs = true) :
    propOk (d.map (safetyFix t u)) k fs = true := by
  unfold propOk at h ⊢
  rw [lookupD_map_safetyFix]
  cases ho : lookupD d k with
  | none => rfl
  | some v =>
      rw [ho] at h
      simp only [Option.map_some']
      rw [safetyFixVal_of_fieldOk t u k v fs h]
      exact h

theorem isSome_lookupD_map_safetyFix (t u : String) (d : PDict) (k : String) :
    (lookupD (d.map (safetyFix t u)) k).isSome = (lookupD d k).isSome := by
  rw [lookupD_map_safetyFix]
  cases lookupD d k <;> rfl

/-- Part A of C8 for the note maker. -/
theorem inferA_note_maker (msg : String) (chat : Json) (ctx : UserContext)
    (paramsA : PDict) (hA2 : propsConform paramsA noteMakerSchema = true) :
    validateS (infer_missing_parameters "note_maker" noteMakerSchema.required
      msg chat ctx paramsA) noteMakerSchema = true := by
  simp only [propsConform, noteMakerSchema, List.all_cons, List.all_nil,
    Bool.and_eq_true, and_true] at hA2
  obtain ⟨htp, hsub, hnts, hie, hia⟩ := hA2
  simp [infer_missing_parameters, validateS, noteMakerSchema,
    isSome_lookupD_map_safetyFix, lookupD_insertD]
  refine ⟨?_, ?_, ?_, ?_, ?_⟩
  · unfold propOk
    rw [lookupD_map_safetyFix]
    simp [lookupD_insertD, safetyFixVal, fieldOk, typeOk]
  · unfold propOk
    rw [lookupD_map_safetyFix]
    simp [lookupD_insertD, safetyFixVal, fieldOk, typeOk]
  · unfold propOk
    rw [lookupD_map_safetyFix]
    simp only [lookupD_insertD]
    by_cases hv : toLowerS (ctx.preferred_teaching_style.getD "") = "visual" <;>
      simp [hv, safetyFixVal, fieldOk, typeOk]
  · apply propOk_map_safetyFix
    unfold propOk at hie ⊢
    simpa [lookupD_insertD] using hie
  · apply propOk_map_safetyFix
    unfold propOk at hia ⊢
    simpa [lookupD_insertD] using hia

/-- Part A of C8 for the flashcard generator. -/
theorem inferA_flashcard (msg : String) (chat : Json) (ctx : UserContext)
    (paramsA : PDict) (hA2 : propsConform paramsA flashcardSchema = true) :
    validateS (infer_missing_parameters "flashcard_generator"
      flashcardSchema.required msg chat ctx paramsA) flashcardSchema = true := by
  simp only [propsConform, flashcardSchema, List.all_cons, List.all_nil,
    Bool.and_eq_true, and_true] at hA2
  obtain ⟨htp, hcnt, hdif, hie, hsub⟩ := hA2
  simp [infer_missing_parameters, validateS, flashcardSchema,
    isSome_lookupD_map_safetyFix, lookupD_insertD]
  refine ⟨?_, ?_, ?_, ?_, ?_⟩
  · unfold propOk
    rw [lookupD_map_safetyFix]
    simp [lookupD_insertD, safetyFixVal, fieldOk, typeOk]
  · unfold propOk
    rw [lookupD_map_safetyFix]
    simp [lookupD_insertD, safetyFixVal, fieldOk, typeOk]
  · unfold propOk
    rw [lookupD_map_safetyFix]
    simp only [lookupD_insertD]
    by_cases h3 : get_mastery_level_int ctx ≤ 3
    · simp [h3, safetyFixVal, fieldOk, typeOk]
    · by_cases h6 : get_mastery_level_int ctx ≤ 6 <;>
        simp [h3, h6, safetyFixVal, fieldOk, typeOk]
  · apply propOk_map_safetyFix
    unfold propOk at hie ⊢
    simpa [lookupD_insertD] using hie
  · unfold propOk
    rw [lookupD_map_safetyFix]
    simp [lookupD_insertD, safetyFixVal, fieldOk, typeOk]

/-- Part A of C8 for the concept explainer. -/
theorem inferA_concept (msg : String) (chat : Json) (ctx : UserContext)
    (paramsA : PDict) (hA2 : propsConform paramsA conceptExplainerSchema = true) :
    validateS (infer_missing_parameters "concept_explainer"
      conceptExplainerSchema.required msg chat ctx paramsA)
      conceptExplainerSchema = true := by
  simp only [propsConform, conceptExplainerSchema, List.all_cons, List.all_nil,
    Bool.and_eq_true, and_true] at hA2
  obtain ⟨hcte, hct, hdd, hie⟩ := hA2
  simp [infer_missing_parameters, validateS, conceptExplainerSchema,
    isSome_lookupD_map_safetyFix, lookupD_insertD]
  refine ⟨?_, ?_, ?_, ?_⟩
  · unfold propOk
    rw [lookupD_map_safetyFix]
    simp [lookupD_insertD, safetyFixVal, fieldOk, typeOk]
  · unfold propOk
    rw [lookupD_map_safetyFix]
    simp [lookupD_insertD, safetyFixVal, fieldOk, typeOk]
  · unfold propOk
    rw [lookupD_map_safetyFix]
    simp only [lookupD_insertD]
    by_cases h3 : get_mastery_level_int ctx ≤ 3
    · simp [h3, safetyFixVal, fieldOk, typeOk]
    · by_cases h6 : get_mastery_level_int ctx ≤ 6 <;>
        simp [h3, h6, safetyFixVal, fieldOk, typeOk]
  · apply propOk_map_safetyFix
    unfold propOk at hie ⊢
    simpa [lookupD_insertD] using hie

/-- Part B of C8, generic in the tool once its schema is fixed: with an
empty missing set, only the safety pass runs, and on a schema-valid
duplicate-free mapping it fixes nothing. -/
theorem inferB_generic (tool : String) (schema : ToolSchema) (msg : String)
    (chat : Json) (ctx : UserContext) (paramsB : PDict)
    (hff : ∀ k, (lookupA schema.properties k).isNone = true →
        fallbackFType tool k = none)
    (hbranch : infer_missing_parameters tool [] msg chat ctx paramsB
        = paramsB.map (safetyFix tool msg))
    (hnd : (paramsB.map Prod.fst).Nodup)
    (hval : validateS paramsB schema = true) :
    infer_missing_parameters tool [] msg chat ctx paramsB = paramsB := by
  have hprops : ∀ kv ∈ schema.properties, propOk paramsB kv.1 kv.2 = true := by
    have h2 := ((Bool.and_eq_true _ _).mp hval).2
    intro kv hm
    exact List.all_eq_true.mp h2 kv hm
  have hfix : ∀ kv ∈ paramsB, safetyFix tool msg kv = id kv := by
    intro kv hm
    obtain ⟨k, v⟩ := kv
    cases v with
    | null =>
        have hl : lookupD paramsB k = some .null := lookupD_of_mem_nodup _ _ _ hnd hm
        cases hfk : lookupA schema.properties k with
        | none =>
            simp [safetyFix, safetyFixVal, hff k (by rw [hfk]; rfl)]
        | some fs =>
            exfalso
            have hp := hprops (k, fs) (lookupA_mem _ _ _ hfk)
            unfold propOk at hp
            simp only [hl, fieldOk_null] at hp
            exact Bool.false_ne_true hp
    | bool b => rfl
    | num n => rfl
    | str s => rfl
    | arr xs => rfl
    | obj ms => rfl
  rw [hbranch, List.map_congr_left hfix, List.map_id]

/-- C8 counterexample: a mapping that misses exactly the required
fields but carries a non-conformant optional field (`include_examples`
as a string) makes the inference output fail validation. -/
theorem inference_output_can_violate_schema :
    flashcardSchema.required.all
      (fun k => (lookupD [("include_examples", Json.str "yes")] k).isNone) = true
    ∧ validateS (infer_missing_parameters "flashcard_generator"
        flashcardSchema.required "m" (.arr []) ⟨none, none⟩
        [("include_examples", .str "yes")]) flashcardSchema = false :=
  ⟨rfl, rfl⟩

/-- C8 (amended): for every registered tool and every mapping that
misses exactly the required fields of its schema and whose present
fields conform to their declared property descriptors, the inference
output satisfies the schema; and inference with an empty missing set on
an already-complete, schema-valid mapping (with duplicate-free keys, as
any Python dict) returns that mapping unchanged. -/
theorem inference_fills_required_and_reinference_is_noop
    (tool : String) (schema : ToolSchema) (msg : String) (chat : Json)
    (ctx : UserContext) (paramsA paramsB : PDict)
    (hreg : lookupA TOOL_PARAM_SCHEMAS tool = some schema)
    (hA1 : schema.required.all (fun k => (lookupD paramsA k).isNone) = true)
    (hA2 : propsConform paramsA schema = true)
    (hB1 : (paramsB.map Prod.fst).Nodup)
    (hB2 : validateS paramsB schema = true) :
    validateS (infer_missing_parameters tool schema.required msg chat ctx paramsA)
      schema = true
    ∧ infer_missing_parameters tool [] msg chat ctx paramsB = paramsB := by
  by_cases h1 : "note_maker" = tool
  · subst h1
    cases Option.some.inj (hreg : some noteMakerSchema = some schema)
    exact ⟨inferA_note_maker msg chat ctx paramsA hA2,
      inferB_generic "note_maker" noteMakerSchema msg chat ctx paramsB
        (fun k hk => by
          show (lookupA noteMakerSchema.properties k).map FieldSchema.ftype = none
          rw [Option.isNone_iff_eq_none.mp hk]
          rfl)
        rfl hB1 hB2⟩
  · by_cases h2 : "flashcard_generator" = tool
    · subst h2
      cases Option.some.inj (hreg : some flashcardSchema = some schema)
      exact ⟨inferA_flashcard msg chat ctx paramsA hA2,
        inferB_generic "flashcard_generator" flashcardSchema msg chat ctx paramsB
          (fun k hk => by
            show (lookupA flashcardSchema.properties k).map FieldSchema.ftype = none
            rw [Option.isNone_iff_eq_none.mp hk]
            rfl)
          rfl hB1 hB2⟩
    · by_cases h3 : "concept_explainer" = tool
      · subst h3
        cases Option.some.inj (hreg : some conceptExplainerSchema = some schema)
        exact ⟨inferA_concept msg chat ctx paramsA hA2,
          inferB_generic "concept_explainer" conceptExplainerSchema msg chat ctx
            paramsB
            (fun k hk => by
              show (lookupA conceptExplainerSchema.properties k).map
                FieldSchema.ftype = none
              rw [Option.isNone_iff_eq_none.mp hk]
              rfl)
            rfl hB1 hB2⟩
      · exfalso
        simp only [TOOL_PARAM_SCHEMAS, lookupA, if_neg h1, if_neg h2, if_neg h3] at hreg
        exact Option.noConfusion hreg

/-- Witness for the amended C8 at the flashcard tool: an empty mapping
gets all required fields filled validly, and a complete valid mapping
is returned unchanged. -/
theorem inference_fills_required_and_reinference_is_noop_witness :
    validateS (infer_missing_parameters "flashcard_generator"
      flashcardSchema.required "m" (.arr []) ⟨none, none⟩ []) flashcardSchema = true
    ∧ infer_missing_parameters "flashcard_generator" [] "m" (.arr []) ⟨none, none⟩
        [("topic", .str "t"), ("count", .num 5), ("difficulty", .str "easy"),
         ("subject", .str "s")]
      = [("topic", .str "t"), ("count", .num 5), ("difficulty", .str "easy"),
         ("subject", .str "s")] :=
  inference_fills_required_and_reinference_is_noop "flashcard_generator"
    flashcardSchema "m" (.arr []) ⟨none, none⟩ []
    [("topic", .str "t"), ("count", .num 5), ("difficulty", .str "easy"),
     ("subject", .str "s")]
    rfl rfl rfl (by decide) rfl

end AITutor
